import Mathlib

/-!
Shallow embedding of the `analyze-journal` edge function of the
mind-scribe-ai repository: the response normalizers, the score
calculator, the therapy-note generator and the request orchestrator,
together with the journal record update it issues.

Numbers are modelled as rationals (JS numbers on the ranges involved
behave exactly), `Math.round` as floor of x + 1/2 (JS rounds half
toward positive infinity), and the loosely-typed classifier payloads
as a small JSON-shape type `Raw` whose leaves are either candidate
objects carrying `label` and `score` fields or opaque scalars (any
JSON value that is neither an array nor an object with both fields --
the code never distinguishes further).
-/

namespace MindScribe

/-- A `{label, score}` candidate object as produced by the classifiers. -/
structure Cand where
  label : String
  score : ℚ
deriving DecidableEq, Repr

/-- Quotient of the untyped JSON payloads by the shape tests the code
performs: arrays, candidate objects (with `label` and `score` fields),
and everything else (`scalar`). -/
inductive Raw where
  | scalar : Raw
  | cand : Cand → Raw
  | arr : List Raw → Raw

/-- JS property access `x.label` (undefined unless a candidate object). -/
def labelOf : Raw → Option String
  | .cand c => some c.label
  | _ => none

/-- JS property access `x.score` (undefined unless a candidate object). -/
def scoreOf : Raw → Option ℚ
  | .cand c => some c.score
  | _ => none

/-- JS `a > b` on possibly-undefined numbers: any comparison involving
`undefined` is false. -/
def jsGT : Option ℚ → Option ℚ → Bool
  | some a, some b => decide (b < a)
  | _, _ => false

/-- JS `Math.round`: rounds half toward positive infinity. -/
def jsRound (q : ℚ) : ℤ := ⌊q + 1/2⌋

/-- The final clamp `Math.max(1, Math.min(10, s))` of `calculateScores`. -/
def clamp10 (n : ℤ) : ℤ := max 1 (min 10 n)

/-- JS `String.prototype.includes`: substring test. -/
def strIncludes (s sub : String) : Bool :=
  (s.data.tails).any (fun t => sub.data.isPrefixOf t)

/-- JS `String.prototype.toUpperCase` (ASCII, which covers every label
the code compares): uppercase each character. -/
def jsToUpper (s : String) : String := ⟨s.data.map Char.toUpper⟩

/-- JS `String.prototype.startsWith`. -/
def strStartsWith (s p : String) : Bool := p.data.isPrefixOf s.data

/-- JS `String.prototype.endsWith`. -/
def strEndsWith (s p : String) : Bool := p.data.isSuffixOf s.data

/-- JS `String.prototype.split` on the single-character separator
`" "`: every space is a boundary, no collapsing, an empty string gives
one empty segment. -/
def jsSplitSpaceAux : List Char → List (List Char)
  | [] => [[]]
  | c :: cs =>
    match jsSplitSpaceAux cs with
    | [] => [[]]
    | seg :: rest => if c = ' ' then [] :: seg :: rest else (c :: seg) :: rest

/-- JS `entry.split(" ")`. -/
def jsSplitSpace (s : String) : List String :=
  (jsSplitSpaceAux s.data).map (fun l => ⟨l⟩)

/-- One step of a stable descending insertion: models the placement the
comparator `(a, b) => b.score - a.score` produces (an element passes
exactly the earlier elements whose score is strictly greater). -/
def sortInsert (x : Raw) : List Raw → List Raw
  | [] => [x]
  | y :: ys => if jsGT (scoreOf y) (scoreOf x) then y :: sortInsert x ys else x :: y :: ys

/-- JS `[...l].sort((a, b) => b.score - a.score)`: stable sort,
descending by score. -/
def jsSortByScoreDesc (l : List Raw) : List Raw :=
  l.foldr sortInsert []

/-- `normalizeSentimentResponse`: nested singleton array -> best-scored
element of the inner list; flat array headed by a candidate object ->
that first object; anything else -> null. -/
def normalizeSentimentResponse : Raw → Option Raw
  | .arr l =>
    match l.head? with
    | some (.arr inner) => (jsSortByScoreDesc inner).head?
    | some (.cand c) => some (.cand c)
    | _ => none
  | _ => none

/-- `normalizeEmotionResponse`: nested singleton array -> the inner
list; any other array -> the array itself (the inner
`Array.isArray(raw)` re-check in the source is always true there);
non-array -> null. -/
def normalizeEmotionResponse : Raw → Option (List Raw)
  | .arr l =>
    match l.head? with
    | some (.arr inner) => some inner
    | _ => some l
  | _ => none

/-- `emotions.reduce((prev, current) => prev.score > current.score ? prev : current)`:
throws on an empty array (modelled as `none`). -/
def jsReduceMax (l : List Raw) : Option Raw :=
  match l with
  | [] => none
  | x :: xs => some (xs.foldl (fun p c => if jsGT (scoreOf p) (scoreOf c) then p else c) x)

def stressEmotions : List String := ["anger", "fear", "sadness"]
def calmEmotions : List String := ["joy", "neutral"]

/-- The stress computation of `calculateScores` (before the final clamp):
baseline 5, raised for anger/fear/sadness, lowered for joy/neutral. -/
def stressScoreOf (dom : Raw) : ℤ :=
  match dom with
  | .cand c =>
    if c.label ∈ stressEmotions then jsRound (5 + c.score * 5)
    else if c.label ∈ calmEmotions then jsRound (5 - c.score * 4)
    else 5
  | _ => 5

def isPositiveLabel (lbl : String) : Bool :=
  strIncludes lbl "POS" || strEndsWith lbl "_1" || lbl == "1"

def isNegativeLabel (lbl : String) : Bool :=
  strIncludes lbl "NEG" || strEndsWith lbl "_0" || lbl == "0"

/-- The happiness computation of `calculateScores` (before the final
clamp): label uppercased, positive raises, negative lowers, else 5.
`String(sentiment?.label || "")` is a defined string even when the
label is undefined, and a non-numeric score reads as 0. -/
def happinessScoreOf (sentiment : Raw) : ℤ :=
  let lbl := jsToUpper ((labelOf sentiment).getD "")
  let sc := (scoreOf sentiment).getD 0
  if isPositiveLabel lbl then jsRound (5 + sc * 5)
  else if isNegativeLabel lbl then jsRound (5 - sc * 4)
  else 5

/-- `generateTherapyNote`: sequential `note += ...` accumulation
translated branch for branch from the source. -/
def generateTherapyNote (emotion : String) (stress happiness : ℤ) (entry : String) : String :=
  let wordCount := (jsSplitSpace entry).length
  let isDetailed := wordCount > 100
  let note := ""
  let note := note ++
    (if emotion = "joy" then
      "Your entry reflects positive emotions. It\x27s wonderful to see you experiencing joy. "
    else if emotion = "sadness" then
      "I notice you\x27re experiencing some difficult emotions. Remember that it\x27s okay to feel this way. "
    else if emotion = "anger" then
      "Your frustration is valid. Consider what\x27s at the root of these feelings. "
    else if emotion = "fear" then
      "I can sense some anxiety in your words. Let\x27s explore what feels overwhelming. "
    else
      "Thank you for sharing your thoughts today. ")
  let note := note ++
    (if stress > 7 then
      "Your stress levels seem elevated. Consider taking breaks and practicing relaxation techniques. "
    else if stress < 4 then
      "You seem to be managing stress well. Keep up these positive patterns. "
    else "")
  let note := note ++
    (if happiness > 7 then
      "Your positive outlook is encouraging. Try to identify what\x27s contributing to these good feelings. "
    else if happiness < 4 then
      "I notice your happiness levels are lower. Consider activities or people that typically lift your spirits. "
    else "")
  let note := note ++
    (if isDetailed then
      "Your detailed reflection shows good self-awareness. Continue this practice of thorough self-expression."
    else
      "Consider expanding on your feelings in future entries for deeper insights.")
  note

/-- Claim-side decomposition: opener chosen by exact match on the four
emotion labels, generic otherwise. -/
def openerFor (emotion : String) : String :=
  if emotion = "joy" then
    "Your entry reflects positive emotions. It\x27s wonderful to see you experiencing joy. "
  else if emotion = "sadness" then
    "I notice you\x27re experiencing some difficult emotions. Remember that it\x27s okay to feel this way. "
  else if emotion = "anger" then
    "Your frustration is valid. Consider what\x27s at the root of these feelings. "
  else if emotion = "fear" then
    "I can sense some anxiety in your words. Let\x27s explore what feels overwhelming. "
  else
    "Thank you for sharing your thoughts today. "

/-- Claim-side decomposition: stress remark, present exactly when
stress > 7 or stress < 4, empty otherwise. -/
def stressFragment (stress : ℤ) : String :=
  if stress > 7 then
    "Your stress levels seem elevated. Consider taking breaks and practicing relaxation techniques. "
  else if stress < 4 then
    "You seem to be managing stress well. Keep up these positive patterns. "
  else ""

/-- Claim-side decomposition: happiness remark, present exactly when
happiness > 7 or happiness < 4, empty otherwise. -/
def happinessFragment (happiness : ℤ) : String :=
  if happiness > 7 then
    "Your positive outlook is encouraging. Try to identify what\x27s contributing to these good feelings. "
  else if happiness < 4 then
    "I notice your happiness levels are lower. Consider activities or people that typically lift your spirits. "
  else ""

/-- `entry.split(" ").length`: number of segments when splitting on the
space character. -/
def jsWordCount (entry : String) : Nat := (jsSplitSpace entry).length

/-- Claim-side decomposition: closing remark, selected by whether the
space-delimited word count exceeds 100. -/
def closerFor (entry : String) : String :=
  if jsWordCount entry > 100 then
    "Your detailed reflection shows good self-awareness. Continue this practice of thorough self-expression."
  else
    "Consider expanding on your feelings in future entries for deeper insights."

/-- `calculateScores`: dominant emotion by `reduce` (throws on an empty
list), stress and happiness from the branch arithmetic, note generated
from the unclamped scores, final values clamped to [1,10]. The entry is
`Option String` because the handler never validates it; `none` models
the `undefined.split` TypeError inside the note generator. -/
def calculateScores (sentiment : Raw) (emotions : List Raw) (entry : Option String) :
    Except String (ℤ × ℤ × String) :=
  match jsReduceMax emotions with
  | none => .error "TypeError: Reduce of empty array with no initial value"
  | some dom =>
    let stress := stressScoreOf dom
    let happiness := happinessScoreOf sentiment
    match entry with
    | none => .error "TypeError: Cannot read properties of undefined"
    | some t =>
      let note := generateTherapyNote ((labelOf dom).getD "") stress happiness t
      .ok (clamp10 stress, clamp10 happiness, note)

/-- Outcome of one `fetch` to a classifier endpoint: success with a
JSON payload, a non-success HTTP status, or a thrown network error. -/
inductive FetchOutcome where
  | ok : Raw → FetchOutcome
  | httpErr : FetchOutcome
  | throws : FetchOutcome

def fetchThrew : FetchOutcome → Bool
  | .throws => true
  | _ => false

/-- The environment the handler reads: the optional Hugging Face
credential, the two classifier call outcomes, and whether the final
database update fails. -/
structure Env where
  hfToken : Option String
  sentimentOutcome : FetchOutcome
  emotionOutcome : FetchOutcome
  updateFails : Bool

/-- The parsed JSON request body `{ entry_text, journal_id }`; either
field may be absent. -/
structure RequestBody where
  entry_text : Option String
  journal_id : Option String

/-- The HTTP response of the handler: the success JSON
`{stress_score, happiness_score, therapy_note}` or the 500 error JSON. -/
inductive ServeResponse where
  | success : ℤ → ℤ → String → ServeResponse
  | error : String → ServeResponse
deriving DecidableEq, Repr

/-- The update object the handler sends to the `journals` table. -/
structure UpdateObj where
  stress_score : Option ℤ
  happiness_score : Option ℤ
  therapy_note : Option String
  therapy_note_viewed : Bool
deriving DecidableEq, Repr

/-- Observable result of one invocation: the HTTP response, which
external calls were attempted, and the update object issued (none when
the handler threw before reaching the persistence write). -/
structure ServeResult where
  response : ServeResponse
  sentimentCallMade : Bool
  emotionCallMade : Bool
  dbUpdate : Option UpdateObj
deriving Repr

/-- `let sentiment = { label: "NEUTRAL", score: 0 }`. -/
def defaultSentiment : Raw := .cand ⟨"NEUTRAL", 0⟩

/-- `let emotions = [{ label: "neutral", score: 1 }]`. -/
def defaultEmotions : List Raw := [.cand ⟨"neutral", 1⟩]

/-- The try-block around the two classifier calls: the sentiment call
runs first; a thrown fetch aborts the rest of the block (keeping values
assigned so far); a non-ok status or an unrecognized payload leaves the
default in place for that call only. -/
def runInference (sOut eOut : FetchOutcome) : Raw × List Raw :=
  match sOut with
  | .throws => (defaultSentiment, defaultEmotions)
  | .ok p =>
    let s := (normalizeSentimentResponse p).getD defaultSentiment
    match eOut with
    | .ok q => (s, (normalizeEmotionResponse q).getD defaultEmotions)
    | _ => (s, defaultEmotions)
  | .httpErr =>
    match eOut with
    | .ok q => (defaultSentiment, (normalizeEmotionResponse q).getD defaultEmotions)
    | _ => (defaultSentiment, defaultEmotions)

/-- The sentiment/emotion pair after the inference phase: without a
credential both calls are skipped and the defaults stand. -/
def inferenceOf (env : Env) : Raw × List Raw :=
  match env.hfToken with
  | none => (defaultSentiment, defaultEmotions)
  | some _ => runInference env.sentimentOutcome env.emotionOutcome

/-- The score calculation the handler performs on the inference result
and the (unvalidated) entry text. -/
def serveCalc (env : Env) (body : RequestBody) : Except String (ℤ × ℤ × String) :=
  calculateScores (inferenceOf env).1 (inferenceOf env).2 body.entry_text

/-- The request handler (`serve` callback) on a POST request whose body
parsed: inference (skipped entirely without a credential), score
calculation, then the single journals update; any thrown error is
caught and returned as a 500 response. The sentiment call is attempted
whenever the credential is present; the emotion call is reached unless
the sentiment fetch threw. -/
def serveModel (env : Env) (body : RequestBody) : ServeResult :=
  let sCalled := env.hfToken.isSome
  let eCalled := env.hfToken.isSome && !(fetchThrew env.sentimentOutcome)
  match serveCalc env body with
  | .error msg => ⟨.error msg, sCalled, eCalled, none⟩
  | .ok (st, hp, note) =>
    let upd : UpdateObj := ⟨some st, none, some note, false⟩
    if env.updateFails then
      ⟨.error "journal update failed", sCalled, eCalled, some upd⟩
    else
      ⟨.success st hp note, sCalled, eCalled, some upd⟩

/-- One row of the `journals` table (migration plus the
`therapy_note_viewed` column the code writes). -/
structure JournalRecord where
  id : String
  user_id : String
  entry_text : String
  stress_score : Option ℤ
  happiness_score : Option ℤ
  therapy_note : Option String
  therapy_note_viewed : Bool
  created_at : String
deriving DecidableEq, Repr

/-- Application of the handler\x27s `.update({...})` object to the
target row: exactly the four listed columns change. -/
def applyAnalysisUpdate (r : JournalRecord) (u : UpdateObj) : JournalRecord :=
  { r with
    stress_score := u.stress_score
    happiness_score := u.happiness_score
    therapy_note := u.therapy_note
    therapy_note_viewed := u.therapy_note_viewed }

/-- Stress score carried by a success response (none on an error). -/
def responseStress : ServeResponse → Option ℤ
  | .success st _ _ => some st
  | .error _ => none

/-- Happiness score carried by a success response (none on an error). -/
def responseHappiness : ServeResponse → Option ℤ
  | .success _ hp _ => some hp
  | .error _ => none

/-- The dominant-emotion `reduce`, restricted to candidate objects:
`jsReduceMax` on a mapped candidate list computes exactly this. -/
def candReduce (c : Cand) (cs : List Cand) : Cand :=
  cs.foldl (fun p x => if x.score < p.score then p else x) c

/-- `sortInsert`, restricted to candidate objects. -/
def candInsert (x : Cand) : List Cand → List Cand
  | [] => [x]
  | y :: ys => if x.score < y.score then y :: candInsert x ys else x :: y :: ys

/-- `jsSortByScoreDesc`, restricted to candidate objects. -/
def candSort (l : List Cand) : List Cand :=
  l.foldr candInsert []

/-- Modelled from the spec: "the entry's whitespace-delimited word
count" — the number of maximal runs of non-whitespace characters.
Claim-side definition, to be compared with the code's split-on-space
segment count `jsWordCount`. -/
def wsWordCountAux : List Char → Bool → Nat
  | [], _ => 0
  | c :: cs, inWord =>
    if c.isWhitespace then wsWordCountAux cs false
    else (if inWord then 0 else 1) + wsWordCountAux cs true

/-- Whitespace-delimited word count of a string (spec-side notion). -/
def wsWordCount (s : String) : Nat := wsWordCountAux s.data false

/-- 101 words separated by newlines: whitespace-delimited word count
101, but `split(" ")` yields a single segment. -/
def manyNewlineWords : String := String.intercalate "\n" (List.replicate 101 "w")

/-! ### Helper lemmas -/

lemma clamp10_bounds (n : ℤ) : 1 ≤ clamp10 n ∧ clamp10 n ≤ 10 := by
  unfold clamp10
  exact ⟨le_max_left _ _, max_le (by norm_num) (min_le_left _ _)⟩

lemma serveModel_sentimentCallMade (env : Env) (body : RequestBody) :
    (serveModel env body).sentimentCallMade = env.hfToken.isSome := by
  unfold serveModel
  cases h : serveCalc env body with
  | error msg => simp
  | ok v =>
    obtain ⟨st, hp, note⟩ := v
    cases huf : env.updateFails <;> simp [huf]

lemma jsRound_eq (q : ℚ) (n : ℤ) (h₁ : (n : ℚ) ≤ q + 1/2) (h₂ : q + 1/2 < n + 1) :
    jsRound q = n := by
  unfold jsRound
  exact Int.floor_eq_iff.mpr ⟨h₁, h₂⟩

lemma stressScoreOf_cand (lbl : String) (q : ℚ) :
    stressScoreOf (.cand ⟨lbl, q⟩) =
      if lbl ∈ stressEmotions then jsRound (5 + q * 5)
      else if lbl ∈ calmEmotions then jsRound (5 - q * 4)
      else 5 := rfl

lemma happinessScoreOf_cand (lbl : String) (q : ℚ) :
    happinessScoreOf (.cand ⟨lbl, q⟩) =
      if isPositiveLabel (jsToUpper lbl) then jsRound (5 + q * 5)
      else if isNegativeLabel (jsToUpper lbl) then jsRound (5 - q * 4)
      else 5 := rfl

lemma stressScoreOf_neutral1 : stressScoreOf (Raw.cand ⟨"neutral", 1⟩) = 1 := by
  rw [stressScoreOf_cand]
  simp only [stressEmotions, calmEmotions]
  norm_num
  exact jsRound_eq _ 1 (by norm_num) (by norm_num)

lemma happinessScoreOf_default : happinessScoreOf defaultSentiment = 5 := by
  show happinessScoreOf (.cand ⟨"NEUTRAL", 0⟩) = 5
  rw [happinessScoreOf_cand]
  have h1 : isPositiveLabel (jsToUpper "NEUTRAL") = false := by decide
  have h2 : isNegativeLabel (jsToUpper "NEUTRAL") = false := by decide
  rw [h1, h2]
  simp

lemma clamp10_one : clamp10 1 = 1 := by
  unfold clamp10
  norm_num

lemma clamp10_five : clamp10 5 = 5 := by
  unfold clamp10
  norm_num

lemma calculateScores_defaults (sentiment : Raw) (t : String) :
    calculateScores sentiment defaultEmotions (some t) =
      .ok (1, clamp10 (happinessScoreOf sentiment),
        generateTherapyNote "neutral" 1 (happinessScoreOf sentiment) t) := by
  simp [calculateScores, defaultEmotions, jsReduceMax, stressScoreOf_neutral1, labelOf,
    clamp10_one]

lemma clamp10_ten : clamp10 10 = 10 := by
  unfold clamp10
  norm_num

lemma stressScoreOf_joy09 : stressScoreOf (Raw.cand ⟨"joy", 9/10⟩) = 1 := by
  rw [stressScoreOf_cand]
  simp only [stressEmotions, calmEmotions]
  norm_num
  exact jsRound_eq _ 1 (by norm_num) (by norm_num)

lemma happinessScoreOf_pos09 : happinessScoreOf (Raw.cand ⟨"POSITIVE", 9/10⟩) = 10 := by
  rw [happinessScoreOf_cand]
  have h1 : isPositiveLabel (jsToUpper "POSITIVE") = true := by decide
  rw [h1]
  simp only [if_true]
  exact jsRound_eq _ 10 (by norm_num) (by norm_num)

lemma serveCalc_emotionFail (tok t : String) (jid : Option String) (p s : Raw)
    (h : normalizeSentimentResponse p = some s) :
    serveCalc ⟨some tok, .ok p, .httpErr, false⟩ ⟨some t, jid⟩
      = .ok (1, clamp10 (happinessScoreOf s),
          generateTherapyNote "neutral" 1 (happinessScoreOf s) t) := by
  unfold serveCalc inferenceOf runInference
  simp only [h, Option.getD]
  exact calculateScores_defaults s t

/-! ### Claims -/

/-- C10: with the inference credential absent, for every entry text the
handler skips both classifier calls and computes stress 1 (the default
emotion neutral/1 takes the calm branch) and happiness 5 (the default
label NEUTRAL matches neither sentiment rule). -/
theorem serve_noCredential_scores (sOut eOut : FetchOutcome) (t : String) (jid : Option String) :
    (serveModel ⟨none, sOut, eOut, false⟩ ⟨some t, jid⟩).response
      = .success 1 5 (generateTherapyNote "neutral" 1 5 t)
    ∧ (serveModel ⟨none, sOut, eOut, false⟩ ⟨some t, jid⟩).sentimentCallMade = false
    ∧ (serveModel ⟨none, sOut, eOut, false⟩ ⟨some t, jid⟩).emotionCallMade = false := by
  have hc : serveCalc ⟨none, sOut, eOut, false⟩ ⟨some t, jid⟩ =
      .ok (1, 5, generateTherapyNote "neutral" 1 5 t) := by
    unfold serveCalc inferenceOf
    rw [calculateScores_defaults]
    rw [happinessScoreOf_default, clamp10_five]
  unfold serveModel
  rw [hc]
  simp

/-- C1 (amended): when the emotion call returns a non-success status
while the sentiment call succeeds and normalizes, the handler keeps the
default emotion set [neutral/1.0], still uses the sentiment result for
happiness, and the stress score is 1 (the neutral default has
confidence 1.0, so the calm branch gives round(5 - 1.0 * 4) = 1), not
the baseline 5. -/
theorem serve_emotionFail_usesSentiment (tok t : String) (jid : Option String) (p s : Raw)
    (h : normalizeSentimentResponse p = some s) :
    (serveModel ⟨some tok, .ok p, .httpErr, false⟩ ⟨some t, jid⟩).response
      = .success 1 (clamp10 (happinessScoreOf s))
          (generateTherapyNote "neutral" 1 (happinessScoreOf s) t) := by
  unfold serveModel
  rw [serveCalc_emotionFail tok t jid p s h]
  simp

/-- Witness for C1 at a concrete input: payload `[{POSITIVE, 0.9}]`. -/
theorem serve_emotionFail_usesSentiment_witness :
    (serveModel ⟨some "tok", .ok (.arr [.cand ⟨"POSITIVE", 9/10⟩]), .httpErr, false⟩
        ⟨some "hello", some "j1"⟩).response
      = .success 1 (clamp10 (happinessScoreOf (.cand ⟨"POSITIVE", 9/10⟩)))
          (generateTherapyNote "neutral" 1 (happinessScoreOf (.cand ⟨"POSITIVE", 9/10⟩)) "hello") :=
  serve_emotionFail_usesSentiment "tok" "hello" (some "j1")
    (.arr [.cand ⟨"POSITIVE", 9/10⟩]) (.cand ⟨"POSITIVE", 9/10⟩) rfl

/-- C1 counterexample: with sentiment POSITIVE/0.9 succeeding and the
emotion call failing, the computed stress score is 1, not the claimed
baseline 5. -/
theorem serve_emotionFail_stress_not_five :
    responseStress ((serveModel ⟨some "tok", .ok (.arr [.cand ⟨"POSITIVE", 9/10⟩]), .httpErr,
        false⟩ ⟨some "hello", some "j1"⟩).response) = some 1
    ∧ (1 : ℤ) ≠ 5 := by
  constructor
  · unfold serveModel
    rw [serveCalc_emotionFail "tok" "hello" (some "j1")
      (.arr [.cand ⟨"POSITIVE", 9/10⟩]) (.cand ⟨"POSITIVE", 9/10⟩) rfl]
    simp [responseStress]
  · decide

/-- C3 (amended): the handler performs no input validation. An empty or
missing entry text is not rejected: with a credential configured the
sentiment call is still attempted; an empty text completes analysis
normally, and a missing text fails only inside note generation, after
the external calls. -/
theorem serve_no_input_validation (tok : String) (jid : Option String)
    (sOut eOut : FetchOutcome) :
    (serveModel ⟨some tok, sOut, eOut, false⟩ ⟨some "", jid⟩).sentimentCallMade = true
    ∧ (serveModel ⟨some tok, sOut, eOut, false⟩ ⟨none, jid⟩).sentimentCallMade = true
    ∧ (serveModel ⟨some tok, .httpErr, .httpErr, false⟩ ⟨some "", jid⟩).response
      = .success 1 5 (generateTherapyNote "neutral" 1 5 "")
    ∧ (serveModel ⟨some tok, .httpErr, .httpErr, false⟩ ⟨none, jid⟩).response
      = .error "TypeError: Cannot read properties of undefined" := by
  refine ⟨?_, ?_, ?_, ?_⟩
  · rw [serveModel_sentimentCallMade]
    rfl
  · rw [serveModel_sentimentCallMade]
    rfl
  · have hc : serveCalc ⟨some tok, .httpErr, .httpErr, false⟩ ⟨some "", jid⟩
        = .ok (1, 5, generateTherapyNote "neutral" 1 5 "") := by
      unfold serveCalc inferenceOf runInference
      rw [calculateScores_defaults, happinessScoreOf_default, clamp10_five]
    unfold serveModel
    rw [hc]
    rfl
  · rfl

/-- C3 counterexample: with entry text `""` and a configured credential
the sentiment call is made and the invocation succeeds, contradicting
rejection before any external call. -/
theorem serve_empty_entry_not_rejected :
    (serveModel ⟨some "tok", .httpErr, .httpErr, false⟩
        ⟨some "", some "j"⟩).sentimentCallMade = true
    ∧ (serveModel ⟨some "tok", .httpErr, .httpErr, false⟩
        ⟨some "", some "j"⟩).response
      = .success 1 5 (generateTherapyNote "neutral" 1 5 "") := by
  constructor
  · rw [serveModel_sentimentCallMade]
    rfl
  · have hc : serveCalc ⟨some "tok", .httpErr, .httpErr, false⟩ ⟨some "", some "j"⟩
        = .ok (1, 5, generateTherapyNote "neutral" 1 5 "") := by
      unfold serveCalc inferenceOf runInference
      rw [calculateScores_defaults, happinessScoreOf_default, clamp10_five]
    unfold serveModel
    rw [hc]
    rfl

/-- C7: the code betrays the claim on the degenerate empty-array
payload. `normalizeEmotionResponse([])` yields the empty list (not "no
result"), the neutral default is therefore not substituted, and the
dominant-emotion `reduce` then throws on the empty array, surfacing a
500 error to the caller instead of completing. -/
theorem emptyEmotionPayload_surfaces_error :
    normalizeEmotionResponse (.arr []) = some []
    ∧ (serveModel ⟨some "tok", .httpErr, .ok (.arr []), false⟩
        ⟨some "hi", some "j"⟩).response
      = .error "TypeError: Reduce of empty array with no initial value" :=
  ⟨rfl, rfl⟩

/-- C4 (amended): for the entry "I feel wonderful and calm today" with
dominant emotion joy/0.9 and sentiment POSITIVE/0.9, the pipeline
computes stress = round(5 - 0.9 * 4) = round(1.4) = 1 (not 2),
happiness = round(5 + 0.9 * 5) = round(9.5) = 10, and the note begins
with the joy opener and ends with the short-entry closer (the word
count is at most 100). -/
theorem joyExample_scores_and_note :
    calculateScores (.cand ⟨"POSITIVE", 9/10⟩) [.cand ⟨"joy", 9/10⟩]
        (some "I feel wonderful and calm today")
      = .ok (1, 10, generateTherapyNote "joy" 1 10 "I feel wonderful and calm today")
    ∧ strStartsWith (generateTherapyNote "joy" 1 10 "I feel wonderful and calm today")
        (openerFor "joy") = true
    ∧ strEndsWith (generateTherapyNote "joy" 1 10 "I feel wonderful and calm today")
        (closerFor "I feel wonderful and calm today") = true
    ∧ jsWordCount "I feel wonderful and calm today" ≤ 100 := by
  refine ⟨?_, ?_, ?_, ?_⟩
  · unfold calculateScores
    simp only [jsReduceMax, List.foldl_nil, labelOf, Option.getD,
      stressScoreOf_joy09, happinessScoreOf_pos09, clamp10_one, clamp10_ten]
  · decide
  · decide
  · decide

/-- C4 counterexample: at the same input the computed stress score is
1, not the claimed round(5 - 0.9 * 4) = 2. -/
theorem joyExample_stress_not_two :
    (calculateScores (.cand ⟨"POSITIVE", 9/10⟩) [.cand ⟨"joy", 9/10⟩]
        (some "I feel wonderful and calm today")).toOption.map (fun r => r.1) = some 1
    ∧ (1 : ℤ) ≠ 2 := by
  constructor
  · unfold calculateScores
    simp only [jsReduceMax, List.foldl_nil, labelOf, Option.getD,
      stressScoreOf_joy09, happinessScoreOf_pos09, clamp10_one, clamp10_ten]
    rfl
  · decide

lemma cand_reduce_step (c x : Cand) :
    (if jsGT (scoreOf (.cand c)) (scoreOf (.cand x)) then Raw.cand c else Raw.cand x)
      = Raw.cand (if x.score < c.score then c else x) := by
  by_cases h : x.score < c.score <;> simp [jsGT, scoreOf, h]

lemma jsReduceMax_map_cand (c : Cand) (cs : List Cand) :
    jsReduceMax ((c :: cs).map .cand) = some (.cand (candReduce c cs)) := by
  unfold jsReduceMax candReduce
  simp only [List.map_cons]
  congr 1
  induction cs generalizing c with
  | nil => rfl
  | cons x xs ih =>
    simp only [List.map_cons, List.foldl_cons, cand_reduce_step]
    exact ih (if x.score < c.score then c else x)

/-- C2: for every sentiment candidate and every non-empty emotion
candidate list with confidences in [0,1], the score calculation
succeeds and both returned scores lie in [1,10]. -/
theorem calculateScores_bounds (s e : Cand) (es : List Cand) (t : String)
    (hs : 0 ≤ s.score ∧ s.score ≤ 1)
    (he : ∀ y ∈ e :: es, 0 ≤ y.score ∧ y.score ≤ 1) :
    ∃ st hp note,
      calculateScores (.cand s) ((e :: es).map .cand) (some t) = .ok (st, hp, note)
      ∧ 1 ≤ st ∧ st ≤ 10 ∧ 1 ≤ hp ∧ hp ≤ 10 := by
  refine ⟨clamp10 (stressScoreOf (.cand (candReduce e es))),
    clamp10 (happinessScoreOf (.cand s)),
    generateTherapyNote ((labelOf (.cand (candReduce e es))).getD "")
      (stressScoreOf (.cand (candReduce e es))) (happinessScoreOf (.cand s)) t,
    ?_, (clamp10_bounds _).1, (clamp10_bounds _).2,
    (clamp10_bounds _).1, (clamp10_bounds _).2⟩
  unfold calculateScores
  rw [jsReduceMax_map_cand]

/-- Witness for C2 at a concrete input. -/
theorem calculateScores_bounds_witness :
    ∃ st hp note,
      calculateScores (.cand ⟨"POSITIVE", 1/2⟩) (([⟨"joy", 1/2⟩] : List Cand).map .cand)
          (some "hi") = .ok (st, hp, note)
      ∧ 1 ≤ st ∧ st ≤ 10 ∧ 1 ≤ hp ∧ hp ≤ 10 :=
  calculateScores_bounds ⟨"POSITIVE", 1/2⟩ ⟨"joy", 1/2⟩ [] "hi"
    (by constructor <;> norm_num)
    (by
      intro y hy
      simp only [List.mem_singleton] at hy
      subst hy
      constructor <;> norm_num)

/-- C9: every update object the handler issues writes exactly
stress_score, happiness_score (always null), therapy_note, and
therapy_note_viewed (always false); applying it to a journal row leaves
id, user_id, entry_text and created_at untouched. -/
theorem analysisUpdate_exact_fields (env : Env) (body : RequestBody) (u : UpdateObj)
    (h : (serveModel env body).dbUpdate = some u) :
    (∃ st note, u = ⟨some st, none, some note, false⟩)
    ∧ ∀ r : JournalRecord,
        (applyAnalysisUpdate r u).stress_score = u.stress_score
        ∧ (applyAnalysisUpdate r u).happiness_score = none
        ∧ (applyAnalysisUpdate r u).therapy_note = u.therapy_note
        ∧ (applyAnalysisUpdate r u).therapy_note_viewed = false
        ∧ (applyAnalysisUpdate r u).id = r.id
        ∧ (applyAnalysisUpdate r u).user_id = r.user_id
        ∧ (applyAnalysisUpdate r u).entry_text = r.entry_text
        ∧ (applyAnalysisUpdate r u).created_at = r.created_at := by
  have hu : ∃ st note, u = ⟨some st, none, some note, false⟩ := by
    unfold serveModel at h
    cases hc : serveCalc env body with
    | error msg =>
      rw [hc] at h
      simp at h
    | ok v =>
      obtain ⟨st, hp, note⟩ := v
      rw [hc] at h
      by_cases huf : env.updateFails <;> simp [huf] at h <;> exact ⟨st, note, h.symm⟩
  refine ⟨hu, ?_⟩
  obtain ⟨st, note, rfl⟩ := hu
  intro r
  refine ⟨rfl, rfl, rfl, rfl, rfl, rfl, rfl, rfl⟩

/-- Witness for C9 at a concrete invocation. -/
theorem analysisUpdate_exact_fields_witness :
    (∃ st note, (⟨some 1, none, some (generateTherapyNote "neutral" 1 5 "hi"), false⟩ : UpdateObj)
        = ⟨some st, none, some note, false⟩)
    ∧ ∀ r : JournalRecord,
        (applyAnalysisUpdate r ⟨some 1, none, some (generateTherapyNote "neutral" 1 5 "hi"), false⟩).stress_score
          = (⟨some 1, none, some (generateTherapyNote "neutral" 1 5 "hi"), false⟩ : UpdateObj).stress_score
        ∧ (applyAnalysisUpdate r ⟨some 1, none, some (generateTherapyNote "neutral" 1 5 "hi"), false⟩).happiness_score = none
        ∧ (applyAnalysisUpdate r ⟨some 1, none, some (generateTherapyNote "neutral" 1 5 "hi"), false⟩).therapy_note
          = (⟨some 1, none, some (generateTherapyNote "neutral" 1 5 "hi"), false⟩ : UpdateObj).therapy_note
        ∧ (applyAnalysisUpdate r ⟨some 1, none, some (generateTherapyNote "neutral" 1 5 "hi"), false⟩).therapy_note_viewed = false
        ∧ (applyAnalysisUpdate r ⟨some 1, none, some (generateTherapyNote "neutral" 1 5 "hi"), false⟩).id = r.id
        ∧ (applyAnalysisUpdate r ⟨some 1, none, some (generateTherapyNote "neutral" 1 5 "hi"), false⟩).user_id = r.user_id
        ∧ (applyAnalysisUpdate r ⟨some 1, none, some (generateTherapyNote "neutral" 1 5 "hi"), false⟩).entry_text = r.entry_text
        ∧ (applyAnalysisUpdate r ⟨some 1, none, some (generateTherapyNote "neutral" 1 5 "hi"), false⟩).created_at = r.created_at :=
  analysisUpdate_exact_fields ⟨none, .httpErr, .httpErr, false⟩ ⟨some "hi", some "j"⟩
    ⟨some 1, none, some (generateTherapyNote "neutral" 1 5 "hi"), false⟩
    (by
      unfold serveModel
      have hc : serveCalc ⟨none, .httpErr, .httpErr, false⟩ ⟨some "hi", some "j"⟩
          = .ok (1, 5, generateTherapyNote "neutral" 1 5 "hi") := by
        unfold serveCalc inferenceOf
        rw [calculateScores_defaults, happinessScoreOf_default, clamp10_five]
      rw [hc]
      rfl)

/-- C8 (amended): the generated note is the concatenation, in fixed
order, of an opener selected by exact match of the emotion label on
joy, sadness, anger, fear (else generic), a stress remark present iff
stress > 7 or stress < 4, a happiness remark present iff
happiness > 7 or happiness < 4, and a closing remark selected by
whether the entry's split-on-single-space segment count
(`entry.split(" ").length`, which counts empty segments and does not
treat other whitespace as a separator — not the whitespace-delimited
word count) exceeds 100; being a pure function of its four inputs it
is deterministic. -/
theorem generateTherapyNote_structure (emo : String) (st hp : ℤ) (t : String) :
    generateTherapyNote emo st hp t
      = openerFor emo ++ stressFragment st ++ happinessFragment hp ++ closerFor t
    ∧ (stressFragment st ≠ "" ↔ (st > 7 ∨ st < 4))
    ∧ (happinessFragment hp ≠ "" ↔ (hp > 7 ∨ hp < 4))
    ∧ closerFor t = (if jsWordCount t > 100 then
        "Your detailed reflection shows good self-awareness. Continue this practice of thorough self-expression."
      else
        "Consider expanding on your feelings in future entries for deeper insights.") := by
  refine ⟨?_, ?_, ?_, rfl⟩
  · unfold generateTherapyNote openerFor stressFragment happinessFragment closerFor jsWordCount
    simp only [String.empty_append]
  · unfold stressFragment
    split_ifs with h1 h2
    · simp only [ne_eq, String.reduceEq, not_false_eq_true, true_iff]
      exact Or.inl h1
    · simp only [ne_eq, String.reduceEq, not_false_eq_true, true_iff]
      exact Or.inr h2
    · simp only [ne_eq, not_true_eq_false, false_iff, not_or]
      omega
  · unfold happinessFragment
    split_ifs with h1 h2
    · simp only [ne_eq, String.reduceEq, not_false_eq_true, true_iff]
      exact Or.inl h1
    · simp only [ne_eq, String.reduceEq, not_false_eq_true, true_iff]
      exact Or.inr h2
    · simp only [ne_eq, not_true_eq_false, false_iff, not_or]
      omega

lemma candReduce_lastMax : ∀ (cs : List Cand) (c : Cand),
    ∃ l₁ l₂ : List Cand, c :: cs = l₁ ++ candReduce c cs :: l₂
      ∧ (∀ y ∈ l₁, y.score ≤ (candReduce c cs).score)
      ∧ (∀ y ∈ l₂, y.score < (candReduce c cs).score) := by
  intro cs
  induction cs with
  | nil =>
    intro c
    exact ⟨[], [], rfl, by simp, by simp⟩
  | cons x xs ih =>
    intro c
    have hstep : candReduce c (x :: xs)
        = candReduce (if x.score < c.score then c else x) xs := rfl
    by_cases hxc : x.score < c.score
    · rw [hstep, if_pos hxc]
      obtain ⟨l₁, l₂, hdec, hle, hlt⟩ := ih c
      cases l₁ with
      | nil =>
        simp only [List.nil_append] at hdec
        have hc := (List.cons_eq_cons.mp hdec).1
        have hxs := (List.cons_eq_cons.mp hdec).2
        refine ⟨[], x :: xs, ?_, by simp, ?_⟩
        · simp [← hc]
        · intro y hy
          rcases List.mem_cons.mp hy with h | h
          · subst h
            rw [← hc]
            exact hxc
          · rw [← hxs] at hlt
            exact hlt y h
      | cons a l₁' =>
        simp only [List.cons_append] at hdec
        have hca := (List.cons_eq_cons.mp hdec).1
        have hxs := (List.cons_eq_cons.mp hdec).2
        have hcle : c.score ≤ (candReduce c xs).score := by
          have := hle a (List.mem_cons_self a l₁')
          rw [← hca] at this
          exact this
        refine ⟨c :: x :: l₁', l₂, ?_, ?_, hlt⟩
        · simp only [List.cons_append]
          rw [← hxs]
        · intro y hy
          rcases List.mem_cons.mp hy with h | h
          · subst h
            exact hcle
          rcases List.mem_cons.mp h with h2 | h2
          · subst h2
            exact le_trans (le_of_lt hxc) hcle
          · have : y ∈ a :: l₁' := List.mem_cons_of_mem a h2
            exact hle y this
    · rw [hstep, if_neg hxc]
      have hcx : c.score ≤ x.score := le_of_not_lt hxc
      obtain ⟨l₁, l₂, hdec, hle, hlt⟩ := ih x
      cases l₁ with
      | nil =>
        simp only [List.nil_append] at hdec
        have hx := (List.cons_eq_cons.mp hdec).1
        have hxs := (List.cons_eq_cons.mp hdec).2
        refine ⟨[c], l₂, ?_, ?_, hlt⟩
        · simp only [List.cons_append, List.nil_append]
          rw [← hx, ← hxs]
        · intro y hy
          rcases List.mem_singleton.mp hy with h
          subst h
          rw [← hx]
          exact hcx
      | cons a l₁' =>
        simp only [List.cons_append] at hdec
        have hxa := (List.cons_eq_cons.mp hdec).1
        have hxs := (List.cons_eq_cons.mp hdec).2
        have hxle : x.score ≤ (candReduce x xs).score := by
          have := hle a (List.mem_cons_self a l₁')
          rw [← hxa] at this
          exact this
        refine ⟨c :: x :: l₁', l₂, ?_, ?_, hlt⟩
        · simp only [List.cons_append]
          rw [← hxs]
        · intro y hy
          rcases List.mem_cons.mp hy with h | h
          · subst h
            exact le_trans hcx hxle
          rcases List.mem_cons.mp h with h2 | h2
          · subst h2
            exact hxle
          · have : y ∈ a :: l₁' := List.mem_cons_of_mem a h2
            exact hle y this

/-- C5 (amended): the dominant emotion selected by the score
calculation is a member of maximal confidence, and when several members
share the maximum the last-seen member (in list order) is chosen — the
`reduce` keeps `prev` only when its score is strictly greater. -/
theorem dominant_is_lastSeen_max (c : Cand) (cs : List Cand) :
    ∃ m l₁ l₂, jsReduceMax ((c :: cs).map .cand) = some (.cand m)
      ∧ c :: cs = l₁ ++ m :: l₂
      ∧ (∀ y ∈ l₁, y.score ≤ m.score)
      ∧ (∀ y ∈ l₂, y.score < m.score) := by
  obtain ⟨l₁, l₂, hdec, hle, hlt⟩ := candReduce_lastMax cs c
  exact ⟨candReduce c cs, l₁, l₂, jsReduceMax_map_cand c cs, hdec, hle, hlt⟩

/-- Witness for C5 at a concrete two-element list. -/
theorem dominant_is_lastSeen_max_witness :
    ∃ m l₁ l₂,
      jsReduceMax ((( ⟨"a", 1/3⟩ :: [⟨"b", 2/3⟩]) : List Cand).map .cand) = some (.cand m)
      ∧ ((⟨"a", 1/3⟩ :: [⟨"b", 2/3⟩]) : List Cand) = l₁ ++ m :: l₂
      ∧ (∀ y ∈ l₁, y.score ≤ m.score)
      ∧ (∀ y ∈ l₂, y.score < m.score) :=
  dominant_is_lastSeen_max ⟨"a", 1/3⟩ [⟨"b", 2/3⟩]

/-- C5 counterexample: on a confidence tie the `reduce` picks the
last-seen member, not the first-seen one. -/
theorem dominant_tie_not_firstSeen :
    (jsReduceMax [.cand ⟨"anger", 1/2⟩, .cand ⟨"joy", 1/2⟩]).bind labelOf = some "joy"
    ∧ ("joy" : String) ≠ "anger" := by
  constructor
  · have hgt : jsGT (scoreOf (.cand ⟨"anger", 1/2⟩)) (scoreOf (.cand ⟨"joy", 1/2⟩)) = false := by
      norm_num [jsGT, scoreOf]
    simp only [jsReduceMax, List.foldl_cons, List.foldl_nil, hgt, Bool.false_eq_true,
      if_false, Option.bind_some]
    rfl
  · decide

lemma candInsert_map (x : Cand) (l : List Cand) :
    sortInsert (.cand x) (l.map .cand) = (candInsert x l).map .cand := by
  induction l with
  | nil => rfl
  | cons y ys ih =>
    simp only [List.map_cons, sortInsert, candInsert, jsGT, scoreOf]
    by_cases h : x.score < y.score <;> simp [h, ih]

lemma candSort_map (l : List Cand) :
    jsSortByScoreDesc (l.map .cand) = (candSort l).map .cand := by
  induction l with
  | nil => rfl
  | cons x xs ih =>
    show sortInsert (.cand x) (jsSortByScoreDesc (xs.map .cand))
      = (candInsert x (candSort xs)).map .cand
    rw [ih, candInsert_map]

lemma mem_candInsert (y x : Cand) (l : List Cand) :
    y ∈ candInsert x l ↔ y = x ∨ y ∈ l := by
  induction l with
  | nil => simp [candInsert]
  | cons z zs ih =>
    unfold candInsert
    by_cases h : x.score < z.score
    · simp only [h, if_true, List.mem_cons, ih]
      tauto
    · simp only [h, if_false, List.mem_cons]

lemma mem_candSort (y : Cand) (l : List Cand) : y ∈ candSort l ↔ y ∈ l := by
  induction l with
  | nil => simp [candSort]
  | cons x xs ih =>
    show y ∈ candInsert x (candSort xs) ↔ _
    rw [mem_candInsert, ih, List.mem_cons]

lemma candInsert_eq_cons (x : Cand) (l : List Cand) (h : ∀ y ∈ l, ¬ x.score < y.score) :
    candInsert x l = x :: l := by
  cases l with
  | nil => rfl
  | cons y ys =>
    unfold candInsert
    rw [if_neg (h y (List.mem_cons_self y ys))]

lemma candSort_cons_of_max (c : Cand) (cs : List Cand) (h : ∀ y ∈ cs, y.score ≤ c.score) :
    candSort (c :: cs) = c :: candSort cs := by
  show candInsert c (candSort cs) = _
  apply candInsert_eq_cons
  intro y hy
  exact not_lt.mpr (h y ((mem_candSort y cs).mp hy))

/-- C6 (amended): for every flat candidate list xs, the emotion
normalizer yields identical output on the singleton-wrapped payload
[xs] and on xs. The sentiment normalizer selects the maximum-confidence
candidate only on the wrapped payload; on the flat payload it returns
the first candidate, so the two agree when the first candidate has
maximal confidence, but not in general. -/
theorem normalize_wrapped_vs_flat :
    (∀ xs : List Cand,
      normalizeEmotionResponse (.arr [.arr (xs.map .cand)])
        = normalizeEmotionResponse (.arr (xs.map .cand)))
    ∧ (∀ (c : Cand) (cs : List Cand),
      normalizeSentimentResponse (.arr ((c :: cs).map .cand)) = some (.cand c))
    ∧ (∀ (c : Cand) (cs : List Cand), (∀ y ∈ cs, y.score ≤ c.score) →
      normalizeSentimentResponse (.arr [.arr ((c :: cs).map .cand)]) = some (.cand c)) := by
  refine ⟨?_, ?_, ?_⟩
  · intro xs
    cases xs with
    | nil => rfl
    | cons x xs => rfl
  · intro c cs
    rfl
  · intro c cs h
    show (jsSortByScoreDesc ((c :: cs).map .cand)).head? = some (.cand c)
    rw [candSort_map, candSort_cons_of_max c cs h]
    rfl

/-- Witness for C6 at concrete lists. -/
theorem normalize_wrapped_vs_flat_witness :
    normalizeEmotionResponse (.arr [.arr (([⟨"joy", 1/2⟩] : List Cand).map .cand)])
      = normalizeEmotionResponse (.arr (([⟨"joy", 1/2⟩] : List Cand).map .cand))
    ∧ normalizeSentimentResponse
        (.arr ((⟨"POSITIVE", 4/5⟩ :: ([⟨"NEGATIVE", 1/5⟩] : List Cand)).map .cand))
      = some (.cand ⟨"POSITIVE", 4/5⟩)
    ∧ normalizeSentimentResponse
        (.arr [.arr ((⟨"POSITIVE", 4/5⟩ :: ([⟨"NEGATIVE", 1/5⟩] : List Cand)).map .cand)])
      = some (.cand ⟨"POSITIVE", 4/5⟩) :=
  ⟨normalize_wrapped_vs_flat.1 [⟨"joy", 1/2⟩],
   normalize_wrapped_vs_flat.2.1 ⟨"POSITIVE", 4/5⟩ [⟨"NEGATIVE", 1/5⟩],
   normalize_wrapped_vs_flat.2.2 ⟨"POSITIVE", 4/5⟩ [⟨"NEGATIVE", 1/5⟩]
     (by
       intro y hy
       simp only [List.mem_singleton] at hy
       subst hy
       norm_num)⟩

/-- C6 counterexample: on the flat list [NEGATIVE/0.2, POSITIVE/0.8]
the sentiment normalizer returns the first candidate, while on the
wrapped version it returns the maximum-confidence candidate, so the
outputs differ. -/
theorem normalize_sentiment_flat_differs :
    (normalizeSentimentResponse
        (.arr [.cand ⟨"NEGATIVE", 1/5⟩, .cand ⟨"POSITIVE", 4/5⟩])).bind labelOf
      = some "NEGATIVE"
    ∧ (normalizeSentimentResponse
        (.arr [.arr [.cand ⟨"NEGATIVE", 1/5⟩, .cand ⟨"POSITIVE", 4/5⟩]])).bind labelOf
      = some "POSITIVE"
    ∧ (some "NEGATIVE" : Option String) ≠ some "POSITIVE" := by
  refine ⟨rfl, ?_, by decide⟩
  have hgt : jsGT (scoreOf (.cand ⟨"POSITIVE", 4/5⟩)) (scoreOf (.cand ⟨"NEGATIVE", 1/5⟩))
      = true := by
    norm_num [jsGT, scoreOf]
  show ((jsSortByScoreDesc [.cand ⟨"NEGATIVE", 1/5⟩, .cand ⟨"POSITIVE", 4/5⟩]).head?).bind labelOf
    = some "POSITIVE"
  show ((sortInsert (.cand ⟨"NEGATIVE", 1/5⟩)
      (sortInsert (.cand ⟨"POSITIVE", 4/5⟩) [])).head?).bind labelOf = some "POSITIVE"
  simp only [sortInsert, hgt, if_true]
  rfl

/-- Witness for C10 at a concrete invocation. -/
theorem serve_noCredential_scores_witness :
    (serveModel ⟨none, .httpErr, .httpErr, false⟩ ⟨some "hello", some "j"⟩).response
      = .success 1 5 (generateTherapyNote "neutral" 1 5 "hello")
    ∧ (serveModel ⟨none, .httpErr, .httpErr, false⟩ ⟨some "hello", some "j"⟩).sentimentCallMade
      = false
    ∧ (serveModel ⟨none, .httpErr, .httpErr, false⟩ ⟨some "hello", some "j"⟩).emotionCallMade
      = false :=
  serve_noCredential_scores .httpErr .httpErr "hello" (some "j")

/-- Witness for C3 at a concrete invocation. -/
theorem serve_no_input_validation_witness :
    (serveModel ⟨some "tk", .httpErr, .throws, false⟩ ⟨some "", some "id"⟩).sentimentCallMade
      = true
    ∧ (serveModel ⟨some "tk", .httpErr, .throws, false⟩ ⟨none, some "id"⟩).sentimentCallMade
      = true
    ∧ (serveModel ⟨some "tk", .httpErr, .httpErr, false⟩ ⟨some "", some "id"⟩).response
      = .success 1 5 (generateTherapyNote "neutral" 1 5 "")
    ∧ (serveModel ⟨some "tk", .httpErr, .httpErr, false⟩ ⟨none, some "id"⟩).response
      = .error "TypeError: Cannot read properties of undefined" :=
  serve_no_input_validation "tk" (some "id") .httpErr .throws

/-- Witness for C8 at a concrete input. -/
theorem generateTherapyNote_structure_witness :
    generateTherapyNote "sadness" 8 2 "rough day"
      = openerFor "sadness" ++ stressFragment 8 ++ happinessFragment 2 ++ closerFor "rough day"
    ∧ (stressFragment 8 ≠ "" ↔ ((8 : ℤ) > 7 ∨ (8 : ℤ) < 4))
    ∧ (happinessFragment 2 ≠ "" ↔ ((2 : ℤ) > 7 ∨ (2 : ℤ) < 4))
    ∧ closerFor "rough day" = (if jsWordCount "rough day" > 100 then
        "Your detailed reflection shows good self-awareness. Continue this practice of thorough self-expression."
      else
        "Consider expanding on your feelings in future entries for deeper insights.") :=
  generateTherapyNote_structure "sadness" 8 2 "rough day"

set_option maxRecDepth 10000 in
/-- C8 counterexample: for an entry of 101 newline-separated words the
whitespace-delimited word count is 101 (the claim then demands the
detailed closer), but `split(" ")` sees a single segment, so the
generated note ends with the short-entry closer and not with the
detailed one — the closer is not selected by the whitespace-delimited
word count. -/
theorem closer_not_whitespace_selected :
    wsWordCount manyNewlineWords > 100
    ∧ jsWordCount manyNewlineWords = 1
    ∧ strEndsWith (generateTherapyNote "joy" 5 5 manyNewlineWords)
        "Consider expanding on your feelings in future entries for deeper insights." = true
    ∧ strEndsWith (generateTherapyNote "joy" 5 5 manyNewlineWords)
        "Your detailed reflection shows good self-awareness. Continue this practice of thorough self-expression."
      = false := by
  refine ⟨?_, ?_, ?_, ?_⟩
  · decide
  · decide
  · decide
  · decide

end MindScribe
